import Mathlib

/-!
Verification of the email triage engine in src/index.js.

The JavaScript program polls a Gmail inbox, extracts each unread message
into a normalized email record, classifies its body with a language model,
and either sends a clarification reply (tracking the thread in an in-memory
map) or treats the text as an understood instruction (removing the thread
from the map), finally marking the message read.

The shallow embedding below models every external call (Gmail list / get /
attachment fetch / send / modify, and the classifier) as a function supplied
by an environment record returning `Except`; `Buffer.from(x, "base64")`
decoding is the environment's `decode` on strings and a thrown `TypeError`
on a missing (undefined) field, matching Node semantics.  Observable side
effects (list requests issued, classifier invocations, replies sent,
messages marked read) are collected in an `Effects` record.  The in-memory
`ongoingThreads` JavaScript `Map` is an insertion-ordered association list.

Concurrency note: the source runs its two `Promise.all` batches over
single-threaded cooperative async tasks.  A rejection of the full-message
fetch batch (`pollEmails` lines 197-203) aborts the cycle via the cycle
level catch, so the batch is modelled as fail-if-any-fails (`fetchAll`).
The admission checks in the processing batch (lines 207-218) run
synchronously, before any task's first await, hence against the store as it
was at batch start; the admitted emails' processing is then modelled in
list order (one admissible linearization).  A `processEmail` rejection can
only happen before any of its side effects (extraction fails before the
try block), and sibling tasks still run to completion under Node semantics,
so the batch runner catches the error and continues.
-/

set_option autoImplicit false

namespace EmailAssistant

deriving instance DecidableEq for Except

/-- Errors thrown by external calls or by JavaScript itself; opaque strings. -/
abbrev JsError := String

/-- One raw Gmail header object: `{ name, value }`. -/
structure Header where
  name : String
  value : String
deriving DecidableEq

/-- A Gmail part/payload `body` object; `data` and `attachmentId` may be absent. -/
structure PartBody where
  data : Option String := none
  attachmentId : Option String := none
deriving DecidableEq

/-- A Gmail MIME part.  `filename` is absent or a string (possibly empty);
the JavaScript code tests it for truthiness, so the empty string counts as
no filename. -/
structure Part where
  filename : Option String := none
  mimeType : String := ""
  body : Option PartBody := none
deriving DecidableEq

/-- A Gmail message payload: headers, optional sub-parts, and a body. -/
structure Payload where
  headers : List Header := []
  parts : Option (List Part) := none
  body : Option PartBody := none
deriving DecidableEq

/-- A raw Gmail message as returned by `users.messages.get`. -/
structure RawMessage where
  id : String
  threadId : String
  payload : Payload
deriving DecidableEq

/-- An extracted attachment descriptor (extractEmail lines 65-69). -/
structure Attachment where
  filename : String
  mimeType : String
  data : String
deriving DecidableEq

/-- The `headers` object built by extractEmail lines 40-44: only the four
recognized names are kept; a later header with the same name overwrites an
earlier one (JavaScript object assignment). -/
structure EmailHeaders where
  From : Option String := none
  To : Option String := none
  Subject : Option String := none
  Date : Option String := none
deriving DecidableEq

/-- The normalized email record returned by extractEmail (lines 74-80). -/
structure Email where
  id : String
  threadId : String
  headers : EmailHeaders
  body : String
  attachments : List Attachment
deriving DecidableEq

/-- A value of the `ongoingThreads` map: `{ lastProcessedEmailId }` (line 33). -/
structure ThreadRecord where
  lastProcessedEmailId : String
deriving DecidableEq

/-- The `ongoingThreads` JavaScript `Map`, as an insertion-ordered
association list with unique keys. -/
abbrev Store := List (String × ThreadRecord)

/-- `Map.prototype.has`. -/
def Store.has (st : Store) (k : String) : Bool :=
  st.any (fun e => e.1 == k)

/-- `Map.prototype.set`: replaces the value in place if the key is present,
otherwise appends the new entry. -/
def Store.set : Store → String → ThreadRecord → Store
  | [], k, v => [(k, v)]
  | (k', v') :: rest, k, v =>
    if k' == k then (k, v) :: rest else (k', v') :: Store.set rest k v

/-- `Map.prototype.delete`: removes the entry with the given key. -/
def Store.delete (st : Store) (k : String) : Store :=
  st.filter (fun e => !(e.1 == k))

/-- `Map.prototype.get`. -/
def Store.lookup : Store → String → Option ThreadRecord
  | [], _ => none
  | (k', v) :: rest, k => if k' == k then some v else Store.lookup rest k

/-- The structured content of the raw RFC-822 reply string assembled by
sendEmailReply (lines 101-109); the actual wire form is these fields joined
as `From:`/`To:`/`Subject:`/`In-Reply-To:`/`References:` lines plus the
body, together with the `threadId` passed in the send request body. -/
structure SentMessage where
  fromAddr : String
  toAddr : String
  subject : String
  inReplyTo : String
  references : String
  body : String
  threadId : String
deriving DecidableEq

/-- The argument object of `users.messages.list` in pollEmails lines 187-191. -/
structure ListRequest where
  q : String
  maxResults : Nat
deriving DecidableEq

/-- The exact listing request pollEmails issues (lines 187-191). -/
def pollListRequest : ListRequest :=
  { q := ("to:md@bursement.com is:unread"), maxResults := 50 }

/-- Observable effects of a run: list requests issued, classifier
invocations (the body text sent), replies sent, and message ids marked
read. -/
structure Effects where
  listCalls : List ListRequest := []
  classifyCalls : List String := []
  sent : List SentMessage := []
  markedRead : List String := []
deriving DecidableEq

def noEffects : Effects := {}

def Effects.append (a b : Effects) : Effects :=
  { listCalls := a.listCalls ++ b.listCalls
    classifyCalls := a.classifyCalls ++ b.classifyCalls
    sent := a.sent ++ b.sent
    markedRead := a.markedRead ++ b.markedRead }

/-- The external world: Gmail client, base64 decoder, and the classifier
model.  Each call either returns a value or throws. -/
structure Env where
  decode : String → String
  getAttachment : String → String → Except JsError String
  classify : String → Except JsError String
  send : SentMessage → Except JsError Unit
  markRead : String → Except JsError Unit
  listUnread : ListRequest → Except JsError (List String)
  getFull : String → Except JsError RawMessage

/-- JavaScript `String.prototype.startsWith`. -/
def jsStartsWith (s p : String) : Bool :=
  List.isPrefixOf p.data s.data

/-- JavaScript `String.prototype.toLowerCase` on the ASCII header names used
here. -/
def lowerAscii (s : String) : String :=
  String.mk (s.data.map Char.toLower)

/-- `decodeBase64` (line 35) applied to a possibly-undefined field:
`Buffer.from(undefined, "base64")` throws a `TypeError`. -/
def decodeData (env : Env) : Option String → Except JsError String
  | none => .error ("TypeError")
  | some s => .ok (env.decode s)

/-- Header extraction, extractEmail lines 40-44: keep only
From / To / Subject / Date, later occurrences overwriting earlier ones. -/
def extractHeaders (hs : List Header) : EmailHeaders :=
  hs.foldl
    (fun acc h =>
      if h.name == ("From") then { acc with From := some h.value }
      else if h.name == ("To") then { acc with To := some h.value }
      else if h.name == ("Subject") then { acc with Subject := some h.value }
      else if h.name == ("Date") then { acc with Date := some h.value }
      else acc)
    {}

/-- Body concatenation over parts, extractEmail lines 47-51: append the
decoded data of every text/plain or text/html part in part order.  Accessing
`part.body.data` on a part without a `body` throws. -/
def bodyFold (env : Env) : List Part → String → Except JsError String
  | [], acc => .ok acc
  | p :: rest, acc =>
    if p.mimeType == ("text/plain") || p.mimeType == ("text/html") then
      match p.body with
      | none => .error ("TypeError")
      | some b =>
        match decodeData env b.data with
        | .error e => .error e
        | .ok s => bodyFold env rest (acc ++ s)
    else bodyFold env rest acc

/-- Body extraction, extractEmail lines 46-54: multipart concatenation when
`payload.parts` is present, otherwise decode the single `payload.body.data`. -/
def extractBody (env : Env) (payload : Payload) : Except JsError String :=
  match payload.parts with
  | some parts => bodyFold env parts ("")
  | none =>
    match payload.body with
    | none => .error ("TypeError")
    | some b => decodeData env b.data

/-- The truthiness test of extractEmail line 59:
`part.filename && part.body && part.body.attachmentId`; returns the
attachment id when the part qualifies. -/
def attachmentRef (p : Part) : Option String :=
  match p.filename with
  | none => none
  | some f =>
    if f == ("") then none
    else
      match p.body with
      | none => none
      | some b =>
        match b.attachmentId with
        | none => none
        | some aid => if aid == ("") then none else some aid

/-- The sequential attachment-fetch loop of extractEmail lines 57-72: for
each qualifying part, fetch the attachment bytes; a failed fetch throws out
of the whole extraction. -/
def extractAttachments (env : Env) (messageId : String) : List Part → Except JsError (List Attachment)
  | [] => .ok []
  | p :: rest =>
    match attachmentRef p with
    | none => extractAttachments env messageId rest
    | some aid =>
      match env.getAttachment messageId aid with
      | .error e => .error e
      | .ok bytes =>
        match extractAttachments env messageId rest with
        | .error e => .error e
        | .ok tailAtts =>
          .ok ({ filename := (p.filename).getD ("")
                 mimeType := p.mimeType
                 data := bytes } :: tailAtts)

/-- extractEmail lines 56-72: the loop runs only when `payload.parts` is
present (an absent parts array yields no attachments). -/
def attachmentsOf (env : Env) (message : RawMessage) : Except JsError (List Attachment) :=
  match message.payload.parts with
  | some parts => extractAttachments env message.id parts
  | none => .ok []

/-- `extractEmail` (lines 38-81): decode headers, body and attachments of a
raw message into a normalized `Email`; any thrown error aborts the whole
extraction. -/
def extractEmail (env : Env) (message : RawMessage) : Except JsError Email :=
  match extractBody env message.payload with
  | .error e => .error e
  | .ok body =>
    match attachmentsOf env message with
    | .error e => .error e
    | .ok atts =>
      .ok { id := message.id
            threadId := message.threadId
            headers := extractHeaders message.payload.headers
            body := body
            attachments := atts }

/-- The Message-Id lookup of processEmail lines 130-132: first header whose
lowercased name is `message-id`. -/
def findMessageId (hs : List Header) : Option String :=
  (hs.find? (fun h => lowerAscii h.name == ("message-id"))).map (fun h => h.value)

/-- processEmail line 135: `email.headers.Subject || ""` (both an absent and
an empty subject give the empty string). -/
def emailSubject (email : Email) : String :=
  (email.headers.Subject).getD ("")

/-- `sendEmailReply` (lines 100-122): the reply assembled from the original
sender, subject, classification text, thread id and Message-Id.  `to` is a
possibly-undefined header value and `messageId` a possibly-null one; a
JavaScript template literal renders them as the words `undefined` and
`null`. -/
def mkReply (recipient : Option String) (subject body threadId : String) (messageId : Option String) : SentMessage :=
  { fromAddr := ("md@bursement.com")
    toAddr := recipient.getD ("undefined")
    subject := ("Re: ") ++ subject
    inReplyTo := messageId.getD ("null")
    references := messageId.getD ("null")
    body := body
    threadId := threadId }

/-- The branch on the classification text, processEmail lines 146-171:
a `Clarify:` response sends the reply and, on success, upserts the thread
record; any other response deletes the thread record.  A send failure
throws (to be caught by the per-email catch). -/
def classifyStep (env : Env) (st : Store) (email : Email) (sender : Option String)
    (subject : String) (messageId : Option String) (aiResponse : String) :
    Except JsError (Store × List SentMessage) :=
  if jsStartsWith aiResponse ("Clarify:") then
    match env.send (mkReply sender subject aiResponse email.threadId messageId) with
    | .error e => .error e
    | .ok _ =>
      .ok (Store.set st email.threadId { lastProcessedEmailId := email.id },
           [mkReply sender subject aiResponse email.threadId messageId])
  else
    .ok (Store.delete st email.threadId, [])

/-- `processEmail` (lines 125-182): extract the email (errors propagate to
the caller), skip non-`Analysis:` subjects, then classify, act on the
classification and mark the message read; errors inside the try block
(classification, send, mark-read) are caught at the email level and the
function returns normally. -/
def processEmail (env : Env) (st : Store) (message : RawMessage) : Except JsError (Store × Effects) :=
  match extractEmail env message with
  | .error e => .error e
  | .ok email =>
    let messageId := findMessageId message.payload.headers
    let sender := email.headers.From
    let subject := emailSubject email
    if !(jsStartsWith subject ("Analysis:")) then
      .ok (st, noEffects)
    else
      match env.classify email.body with
      | .error _ => .ok (st, { classifyCalls := [email.body] })
      | .ok aiResponse =>
        match classifyStep env st email sender subject messageId aiResponse with
        | .error _ => .ok (st, { classifyCalls := [email.body] })
        | .ok (st1, sentList) =>
          match env.markRead email.id with
          | .error _ => .ok (st1, { classifyCalls := [email.body], sent := sentList })
          | .ok _ =>
            .ok (st1, { classifyCalls := [email.body], sent := sentList,
                        markedRead := [email.id] })

/-- The subject lookup of pollEmails lines 208-210: first header named
exactly `Subject`, else the empty string. -/
def pollSubject (m : RawMessage) : String :=
  ((m.payload.headers.find? (fun h => h.name == ("Subject"))).map (fun h => h.value)).getD ("")

/-- The admission test of pollEmails line 213: subject starts with
`Analysis:` or the thread is already tracked. -/
def eligible (st : Store) (m : RawMessage) : Bool :=
  jsStartsWith (pollSubject m) ("Analysis:") || Store.has st m.threadId

/-- The `Promise.all` over `users.messages.get` calls, pollEmails lines
197-203: succeeds with all full messages when every fetch succeeds; any
single rejection rejects the whole batch (no per-message catch), aborting
the cycle at the cycle-level catch. -/
def fetchAll (env : Env) : List String → Except JsError (List RawMessage)
  | [] => .ok []
  | id :: rest =>
    match env.getFull id with
    | .error e => .error e
    | .ok m =>
      match fetchAll env rest with
      | .error e => .error e
      | .ok ms => .ok (m :: ms)

/-- One admitted message inside the processing batch (pollEmails line 214).
A `processEmail` rejection (extraction failure, which precedes every side
effect) rejects the batch promise and is logged by the cycle-level catch,
while sibling tasks run to completion, so the runner records no effects for
the failed email and continues. -/
def handleAdmitted (env : Env) (st : Store) (m : RawMessage) : Store × Effects :=
  match processEmail env st m with
  | .ok r => r
  | .error _ => (st, noEffects)

/-- The processing batch of pollEmails lines 206-219 over the admitted
messages, in list order. -/
def runBatch (env : Env) : Store → Effects → List RawMessage → Store × Effects
  | st, eff, [] => (st, eff)
  | st, eff, m :: rest =>
    let r := handleAdmitted env st m
    runBatch env r.1 (Effects.append eff r.2) rest

/-- `pollEmails` (lines 185-223): list unread message ids (cap 50), return
early when none, fetch all full messages, then process the admitted ones.
Any error escaping a step is caught by the cycle-level catch (lines
220-222); admission is decided against the store as of batch start (the
checks run synchronously before any per-email await). -/
def pollEmails (env : Env) (st : Store) : Store × Effects :=
  let base : Effects := { listCalls := [pollListRequest] }
  match env.listUnread pollListRequest with
  | .error _ => (st, base)
  | .ok messages =>
    if messages.isEmpty then (st, base)
    else
      match fetchAll env messages with
      | .error _ => (st, base)
      | .ok fullMessages =>
        runBatch env st base (fullMessages.filter (fun m => eligible st m))

/-! ### Concrete fixtures

Small concrete mailboxes and environments used to evaluate the engine on
closed inputs (witnesses and counterexamples). -/

/-- A fresh request email: subject carries the admission marker, the
classifier will ask for clarification. -/
def msgA : RawMessage :=
  { id := ("mA"), threadId := ("tA")
    payload :=
      { headers :=
          [ { name := ("Subject"), value := ("Analysis: refund request") }
          , { name := ("From"), value := ("alice@example.com") }
          , { name := ("Message-ID"), value := ("<mid-A@mail>") } ]
        parts := none
        body := some { data := some ("please refund order 7") } } }

/-- The extraction of `msgA`. -/
def emailA : Email :=
  { id := ("mA"), threadId := ("tA")
    headers := { From := some ("alice@example.com")
                 Subject := some ("Analysis: refund request") }
    body := ("please refund order 7")
    attachments := [] }

/-- The clarification reply the engine sends for `msgA` under `envA`. -/
def replyA : SentMessage :=
  mkReply (some ("alice@example.com")) ("Analysis: refund request")
    ("Clarify: which order number?") ("tA") (some ("<mid-A@mail>"))

/-- Environment in which every external call succeeds and the classifier
asks for clarification. -/
def envA : Env :=
  { decode := fun s => s
    getAttachment := fun _ _ => .ok ("")
    classify := fun _ => .ok ("Clarify: which order number?")
    send := fun _ => .ok ()
    markRead := fun _ => .ok ()
    listUnread := fun _ => .ok [("mA")]
    getFull := fun _ => .ok msgA }

/-- The store and effects `pollEmails envA []` produces. -/
def stA : Store := [(("tA"), { lastProcessedEmailId := ("mA") })]

def effA : Effects :=
  { classifyCalls := [("please refund order 7")]
    sent := [replyA]
    markedRead := [("mA")] }

/-- A follow-up inside an ongoing thread whose subject (as real reply
subjects do) starts with `Re:` rather than `Analysis:`. -/
def msgFollow : RawMessage :=
  { id := ("mC"), threadId := ("tC")
    payload :=
      { headers :=
          [ { name := ("Subject"), value := ("Re: Analysis: invoice") }
          , { name := ("From"), value := ("carol@example.com") } ]
        parts := none
        body := some { data := some ("here is the invoice") } } }

/-- Store tracking the thread of `msgFollow`. -/
def stC2 : Store := [(("tC"), { lastProcessedEmailId := ("m0") })]

/-- Environment whose classifier understands every body. -/
def envC2 : Env :=
  { decode := fun s => s
    getAttachment := fun _ _ => .ok ("")
    classify := fun _ => .ok ("Process the attached invoice")
    send := fun _ => .ok ()
    markRead := fun _ => .ok ()
    listUnread := fun _ => .ok [("mC")]
    getFull := fun _ => .ok msgFollow }

/-- A prefixed follow-up in a tracked thread, understood by the classifier. -/
def msgB2 : RawMessage :=
  { id := ("mB2"), threadId := ("tB2")
    payload :=
      { headers :=
          [ { name := ("Subject"), value := ("Analysis: invoice") }
          , { name := ("From"), value := ("carol@example.com") } ]
        parts := none
        body := some { data := some ("attached invoice") } } }

def emailB2 : Email :=
  { id := ("mB2"), threadId := ("tB2")
    headers := { From := some ("carol@example.com")
                 Subject := some ("Analysis: invoice") }
    body := ("attached invoice")
    attachments := [] }

def stB2 : Store := [(("tB2"), { lastProcessedEmailId := ("m0") })]

def envB2 : Env :=
  { decode := fun s => s
    getAttachment := fun _ _ => .ok ("")
    classify := fun _ => .ok ("Process the attached invoice")
    send := fun _ => .ok ()
    markRead := fun _ => .ok ()
    listUnread := fun _ => .ok [("mB2")]
    getFull := fun _ => .ok msgB2 }

/-- An unprefixed, untracked email (spec Scenario C). -/
def msgH : RawMessage :=
  { id := ("mH"), threadId := ("tH")
    payload :=
      { headers :=
          [ { name := ("Subject"), value := ("Hello") }
          , { name := ("From"), value := ("dave@example.com") } ]
        parts := none
        body := some { data := some ("hi there") } } }

def envC4 : Env :=
  { decode := fun s => s
    getAttachment := fun _ _ => .ok ("")
    classify := fun _ => .ok ("anything")
    send := fun _ => .ok ()
    markRead := fun _ => .ok ()
    listUnread := fun _ => .ok [("mH")]
    getFull := fun _ => .ok msgH }

/-- A second processable message, listed behind a message whose full fetch
fails. -/
def msgB : RawMessage :=
  { id := ("mB"), threadId := ("tB")
    payload :=
      { headers :=
          [ { name := ("Subject"), value := ("Analysis: order change") }
          , { name := ("From"), value := ("bob@example.com") }
          , { name := ("Message-ID"), value := ("<mid-B@mail>") } ]
        parts := none
        body := some { data := some ("change my order") } } }

/-- Cycle listing two messages; fetching the first one fails. -/
def envC1fail : Env :=
  { decode := fun s => s
    getAttachment := fun _ _ => .ok ("")
    classify := fun _ => .ok ("Clarify: which order?")
    send := fun _ => .ok ()
    markRead := fun _ => .ok ()
    listUnread := fun _ => .ok [("mF"), ("mB")]
    getFull := fun id => if id == ("mB") then .ok msgB else .error ("network error") }

/-- The same world but with only the healthy message listed. -/
def envC1ok : Env :=
  { decode := fun s => s
    getAttachment := fun _ _ => .ok ("")
    classify := fun _ => .ok ("Clarify: which order?")
    send := fun _ => .ok ()
    markRead := fun _ => .ok ()
    listUnread := fun _ => .ok [("mB")]
    getFull := fun id => if id == ("mB") then .ok msgB else .error ("network error") }

/-- A store used to observe per-email error handling against existing
tracking state. -/
def stW : Store := [(("tA"), { lastProcessedEmailId := ("old") })]

/-- Classifier call fails. -/
def envClsErr : Env :=
  { decode := fun s => s
    getAttachment := fun _ _ => .ok ("")
    classify := fun _ => .error ("model down")
    send := fun _ => .ok ()
    markRead := fun _ => .ok ()
    listUnread := fun _ => .ok [("mA")]
    getFull := fun _ => .ok msgA }

/-- The clarification send fails. -/
def envSendErr : Env :=
  { decode := fun s => s
    getAttachment := fun _ _ => .ok ("")
    classify := fun _ => .ok ("Clarify: which order number?")
    send := fun _ => .error ("send fail")
    markRead := fun _ => .ok ()
    listUnread := fun _ => .ok [("mA")]
    getFull := fun _ => .ok msgA }

/-- The classifier understands but the mark-read modify call fails. -/
def envMrErr : Env :=
  { decode := fun s => s
    getAttachment := fun _ _ => .ok ("")
    classify := fun _ => .ok ("All understood, processing now")
    send := fun _ => .ok ()
    markRead := fun _ => .error ("modify fail")
    listUnread := fun _ => .ok [("mA")]
    getFull := fun _ => .ok msgA }

/-- A text part and an attachment part for the extraction fixtures. -/
def partText : Part :=
  { filename := some (""), mimeType := ("text/plain")
    body := some { data := some ("see attachment") } }

def partAtt : Part :=
  { filename := some ("inv.pdf"), mimeType := ("application/pdf")
    body := some { attachmentId := some ("att-1") } }

/-- A multipart message carrying one attachment. -/
def msgAtt : RawMessage :=
  { id := ("mE"), threadId := ("tE")
    payload :=
      { headers :=
          [ { name := ("Subject"), value := ("Analysis: invoice") }
          , { name := ("From"), value := ("erin@example.com") } ]
        parts := some [partText, partAtt]
        body := none } }

/-- The attachment fetch fails. -/
def envAttFail : Env :=
  { decode := fun s => s
    getAttachment := fun _ _ => .error ("attachment fetch failed")
    classify := fun _ => .ok ("anything")
    send := fun _ => .ok ()
    markRead := fun _ => .ok ()
    listUnread := fun _ => .ok [("mE")]
    getFull := fun _ => .ok msgAtt }

/-! ### Association-list lemmas for the `ongoingThreads` map -/

theorem beq_false_of_ne {a b : String} (h : ¬ a = b) : (a == b) = false := by
  cases hab : (a == b) with
  | false => rfl
  | true => exact absurd (by simpa using hab) h

theorem Store.has_set (st : Store) (k : String) (v : ThreadRecord) (t : String) :
    Store.has (Store.set st k v) t = (Store.has st t || k == t) := by
  induction st with
  | nil => simp [Store.set, Store.has]
  | cons e rest ih =>
    obtain ⟨k', v'⟩ := e
    by_cases hk : k' == k
    · have hkeq : k' = k := by simpa using hk
      subst hkeq
      simp [Store.set, Store.has, hk, Bool.or_assoc, Bool.or_left_comm, Bool.or_comm]
    · simp only [Store.set, Store.has, hk, if_neg]
      simp only [Store.has] at ih
      simp [List.any_cons, ih, Bool.or_assoc]

theorem Store.lookup_set_self (st : Store) (k : String) (v : ThreadRecord) :
    Store.lookup (Store.set st k v) k = some v := by
  induction st with
  | nil => simp [Store.set, Store.lookup]
  | cons e rest ih =>
    obtain ⟨k', v'⟩ := e
    by_cases hk : k' == k
    · simp [Store.set, Store.lookup, hk]
    · simp [Store.set, Store.lookup, hk, ih]

theorem Store.has_delete (st : Store) (k t : String) :
    Store.has (Store.delete st k) t = (Store.has st t && !(t == k)) := by
  induction st with
  | nil => simp [Store.delete, Store.has]
  | cons e rest ih =>
    obtain ⟨k', v'⟩ := e
    simp only [Store.delete, Store.has, List.filter_cons, List.any_cons] at ih ⊢
    by_cases hk : k' = k
    · by_cases ht : t = k
      · simp [hk, ht, ih]
      · simp [hk, ht, ih, beq_false_of_ne (Ne.symm ht)]
    · by_cases ht : k' = t
      · have htk : ¬ t = k := fun h => hk (ht.trans h)
        simp [hk, ht, htk, ih]
      · simp [beq_false_of_ne hk, beq_false_of_ne ht, ih]

theorem Store.has_delete_self (st : Store) (k : String) :
    Store.has (Store.delete st k) k = false := by
  simp [Store.has_delete]

/-! ### Branch lemmas for `processEmail` -/

section BranchLemmas

variable (env : Env) (st : Store) (m : RawMessage) (email : Email)

/-- Skip branch (lines 138-141): non-`Analysis:` subject. -/
theorem processEmail_skip
    (hext : extractEmail env m = .ok email)
    (hsub : jsStartsWith (emailSubject email) ("Analysis:") = false) :
    processEmail env st m = .ok (st, noEffects) := by
  simp [processEmail, hext, hsub]

/-- Classification failure, caught at the email level (lines 143-181). -/
theorem processEmail_classify_err {e : JsError}
    (hext : extractEmail env m = .ok email)
    (hsub : jsStartsWith (emailSubject email) ("Analysis:") = true)
    (hcl : env.classify email.body = .error e) :
    processEmail env st m = .ok (st, { classifyCalls := [email.body] }) := by
  simp [processEmail, hext, hsub, hcl]

/-- Clarification branch with a failing send, caught at the email level;
the upsert at line 156 and the mark-read at lines 174-178 never run. -/
theorem processEmail_send_err {ai : String} {e : JsError}
    (hext : extractEmail env m = .ok email)
    (hsub : jsStartsWith (emailSubject email) ("Analysis:") = true)
    (hcl : env.classify email.body = .ok ai)
    (hmark : jsStartsWith ai ("Clarify:") = true)
    (hsend : env.send (mkReply email.headers.From (emailSubject email) ai
        email.threadId (findMessageId m.payload.headers)) = .error e) :
    processEmail env st m = .ok (st, { classifyCalls := [email.body] }) := by
  simp [processEmail, classifyStep, hext, hsub, hcl, hmark, hsend]

/-- Clarification branch, send and mark-read succeeding (lines 146-178). -/
theorem processEmail_clarify_mrok {ai : String}
    (hext : extractEmail env m = .ok email)
    (hsub : jsStartsWith (emailSubject email) ("Analysis:") = true)
    (hcl : env.classify email.body = .ok ai)
    (hmark : jsStartsWith ai ("Clarify:") = true)
    (hsend : env.send (mkReply email.headers.From (emailSubject email) ai
        email.threadId (findMessageId m.payload.headers)) = .ok ())
    (hmr : env.markRead email.id = .ok ()) :
    processEmail env st m = .ok
      (Store.set st email.threadId { lastProcessedEmailId := email.id },
       { classifyCalls := [email.body]
         sent := [mkReply email.headers.From (emailSubject email) ai
           email.threadId (findMessageId m.payload.headers)]
         markedRead := [email.id] }) := by
  simp [processEmail, classifyStep, hext, hsub, hcl, hmark, hsend, hmr]

/-- Clarification branch, send succeeding but mark-read failing: the error
is caught, yet the upsert of line 156 has already happened. -/
theorem processEmail_clarify_mrerr {ai : String} {e : JsError}
    (hext : extractEmail env m = .ok email)
    (hsub : jsStartsWith (emailSubject email) ("Analysis:") = true)
    (hcl : env.classify email.body = .ok ai)
    (hmark : jsStartsWith ai ("Clarify:") = true)
    (hsend : env.send (mkReply email.headers.From (emailSubject email) ai
        email.threadId (findMessageId m.payload.headers)) = .ok ())
    (hmr : env.markRead email.id = .error e) :
    processEmail env st m = .ok
      (Store.set st email.threadId { lastProcessedEmailId := email.id },
       { classifyCalls := [email.body]
         sent := [mkReply email.headers.From (emailSubject email) ai
           email.threadId (findMessageId m.payload.headers)] }) := by
  simp [processEmail, classifyStep, hext, hsub, hcl, hmark, hsend, hmr]

/-- Understood branch with mark-read succeeding (lines 157-178). -/
theorem processEmail_understood_mrok {ai : String}
    (hext : extractEmail env m = .ok email)
    (hsub : jsStartsWith (emailSubject email) ("Analysis:") = true)
    (hcl : env.classify email.body = .ok ai)
    (hmark : jsStartsWith ai ("Clarify:") = false)
    (hmr : env.markRead email.id = .ok ()) :
    processEmail env st m = .ok
      (Store.delete st email.threadId,
       { classifyCalls := [email.body], markedRead := [email.id] }) := by
  simp [processEmail, classifyStep, hext, hsub, hcl, hmark, hmr]

/-- Understood branch with mark-read failing: the error is caught, yet the
deletion of line 170 has already happened. -/
theorem processEmail_understood_mrerr {ai : String} {e : JsError}
    (hext : extractEmail env m = .ok email)
    (hsub : jsStartsWith (emailSubject email) ("Analysis:") = true)
    (hcl : env.classify email.body = .ok ai)
    (hmark : jsStartsWith ai ("Clarify:") = false)
    (hmr : env.markRead email.id = .error e) :
    processEmail env st m = .ok
      (Store.delete st email.threadId, { classifyCalls := [email.body] }) := by
  simp [processEmail, classifyStep, hext, hsub, hcl, hmark, hmr]

/-- An extraction failure propagates out of `processEmail` (line 126 sits
outside the try block). -/
theorem processEmail_extract_err {e : JsError}
    (hext : extractEmail env m = .error e) :
    processEmail env st m = .error e := by
  simp [processEmail, hext]

end BranchLemmas

/-! ### Exhaustive case analysis of one email's processing -/

/-- Every successful `processEmail` run falls into one of four outcomes:
skipped or caught-before-acting (store untouched, nothing sent), a
clarification round (upsert plus exactly the one reply), or an understood
instruction (deletion, nothing sent). -/
theorem processEmail_shape (env : Env) (st : Store) (m : RawMessage) (email : Email)
    (st' : Store) (eff : Effects)
    (hext : extractEmail env m = .ok email)
    (hp : processEmail env st m = .ok (st', eff)) :
    (st' = st ∧ eff = noEffects) ∨
    (st' = st ∧ eff = { classifyCalls := [email.body] }) ∨
    (∃ ai mr, env.classify email.body = .ok ai ∧ jsStartsWith ai ("Clarify:") = true ∧
      st' = Store.set st email.threadId { lastProcessedEmailId := email.id } ∧
      eff = { classifyCalls := [email.body]
              sent := [mkReply email.headers.From (emailSubject email) ai
                email.threadId (findMessageId m.payload.headers)]
              markedRead := mr }) ∨
    (∃ ai mr, env.classify email.body = .ok ai ∧ jsStartsWith ai ("Clarify:") = false ∧
      st' = Store.delete st email.threadId ∧
      eff = { classifyCalls := [email.body], markedRead := mr }) := by
  cases hsub : jsStartsWith (emailSubject email) ("Analysis:") with
  | false =>
    rw [processEmail_skip env st m email hext hsub] at hp
    simp only [Except.ok.injEq, Prod.mk.injEq] at hp
    exact Or.inl ⟨hp.1.symm, hp.2.symm⟩
  | true =>
    cases hcl : env.classify email.body with
    | error e =>
      rw [processEmail_classify_err env st m email hext hsub hcl] at hp
      simp only [Except.ok.injEq, Prod.mk.injEq] at hp
      exact Or.inr (Or.inl ⟨hp.1.symm, hp.2.symm⟩)
    | ok ai =>
      cases hmark : jsStartsWith ai ("Clarify:") with
      | true =>
        cases hsend : env.send (mkReply email.headers.From (emailSubject email) ai
            email.threadId (findMessageId m.payload.headers)) with
        | error e =>
          rw [processEmail_send_err env st m email hext hsub hcl hmark hsend] at hp
          simp only [Except.ok.injEq, Prod.mk.injEq] at hp
          exact Or.inr (Or.inl ⟨hp.1.symm, hp.2.symm⟩)
        | ok u =>
          cases u
          cases hmr : env.markRead email.id with
          | ok u2 =>
            cases u2
            rw [processEmail_clarify_mrok env st m email hext hsub hcl hmark hsend hmr] at hp
            simp only [Except.ok.injEq, Prod.mk.injEq] at hp
            exact Or.inr (Or.inr (Or.inl
              ⟨ai, [email.id], rfl, hmark, hp.1.symm, hp.2.symm⟩))
          | error e =>
            rw [processEmail_clarify_mrerr env st m email hext hsub hcl hmark hsend hmr] at hp
            simp only [Except.ok.injEq, Prod.mk.injEq] at hp
            exact Or.inr (Or.inr (Or.inl
              ⟨ai, [], rfl, hmark, hp.1.symm, hp.2.symm⟩))
      | false =>
        cases hmr : env.markRead email.id with
        | ok u2 =>
          cases u2
          rw [processEmail_understood_mrok env st m email hext hsub hcl hmark hmr] at hp
          simp only [Except.ok.injEq, Prod.mk.injEq] at hp
          exact Or.inr (Or.inr (Or.inr
            ⟨ai, [email.id], rfl, hmark, hp.1.symm, hp.2.symm⟩))
        | error e =>
          rw [processEmail_understood_mrerr env st m email hext hsub hcl hmark hmr] at hp
          simp only [Except.ok.injEq, Prod.mk.injEq] at hp
          exact Or.inr (Or.inr (Or.inr
            ⟨ai, [], rfl, hmark, hp.1.symm, hp.2.symm⟩))

/-- A successful `processEmail` run implies a successful extraction. -/
theorem extract_ok_of_processEmail_ok (env : Env) (st : Store) (m : RawMessage)
    (r : Store × Effects) (hp : processEmail env st m = .ok r) :
    ∃ email, extractEmail env m = .ok email := by
  cases hext : extractEmail env m with
  | error e =>
    rw [processEmail_extract_err env st m hext] at hp
    exact absurd hp (by simp)
  | ok email => exact ⟨email, rfl⟩

/-- `processEmail` never issues a listing request. -/
theorem processEmail_listCalls (env : Env) (st : Store) (m : RawMessage)
    (st' : Store) (eff : Effects) (hp : processEmail env st m = .ok (st', eff)) :
    eff.listCalls = [] := by
  obtain ⟨email, hext⟩ := extract_ok_of_processEmail_ok env st m _ hp
  rcases processEmail_shape env st m email st' eff hext hp with
    ⟨_, he⟩ | ⟨_, he⟩ | ⟨ai, mr, _, _, _, he⟩ | ⟨ai, mr, _, _, _, he⟩ <;>
    simp [he, noEffects]

/-! ### Batch-level lemmas -/

/-- The batch runner never issues a listing request of its own. -/
theorem runBatch_listCalls (env : Env) :
    ∀ (ms : List RawMessage) (st : Store) (eff : Effects),
      (runBatch env st eff ms).2.listCalls = eff.listCalls := by
  intro ms
  induction ms with
  | nil => intro st eff; rfl
  | cons m rest ih =>
    intro st eff
    have hh : (handleAdmitted env st m).2.listCalls = [] := by
      unfold handleAdmitted
      cases hp : processEmail env st m with
      | error e => rfl
      | ok r => exact processEmail_listCalls env st m r.1 r.2 (by rw [hp])
    simp only [runBatch, ih, Effects.append, hh, List.append_nil]

/-- Every cycle issues exactly one listing request, the fixed
`pollListRequest`. -/
theorem pollEmails_listCalls (env : Env) (st : Store) :
    (pollEmails env st).2.listCalls = [pollListRequest] := by
  unfold pollEmails
  cases hl : env.listUnread pollListRequest with
  | error e => rfl
  | ok messages =>
    cases hne : messages.isEmpty with
    | true => simp [hne]
    | false =>
      cases hf : fetchAll env messages with
      | error e => simp [hne, hf]
      | ok fullMessages => simp [hne, hf, runBatch_listCalls]

/-- A member of the id list whose fetch fails makes the whole
`Promise.all` fetch batch fail. -/
theorem fetchAll_error_of_mem (env : Env) {fid : String} {e : JsError} :
    ∀ ids : List String, fid ∈ ids → env.getFull fid = .error e →
      ∃ e', fetchAll env ids = .error e' := by
  intro ids
  induction ids with
  | nil => intro h; cases h
  | cons hd tl ih =>
    intro hmem hget
    rcases List.mem_cons.mp hmem with heq | htl
    · subst heq
      exact ⟨e, by simp [fetchAll, hget]⟩
    · cases hhd : env.getFull hd with
      | error e2 => exact ⟨e2, by simp [fetchAll, hhd]⟩
      | ok mm =>
        obtain ⟨e', hfa⟩ := ih htl hget
        exact ⟨e', by simp [fetchAll, hhd, hfa]⟩

/-- A qualifying part whose attachment fetch fails makes the whole
attachment loop fail. -/
theorem extractAttachments_error_of_mem (env : Env) (mid : String)
    {p : Part} {aid : String} {e : JsError} :
    ∀ parts : List Part, p ∈ parts → attachmentRef p = some aid →
      env.getAttachment mid aid = .error e →
      ∃ e', extractAttachments env mid parts = .error e' := by
  intro parts
  induction parts with
  | nil => intro h; cases h
  | cons hd tl ih =>
    intro hmem href hget
    rcases List.mem_cons.mp hmem with heq | htl
    · subst heq
      exact ⟨e, by simp [extractAttachments, href, hget]⟩
    · cases hhd : attachmentRef hd with
      | none =>
        obtain ⟨e', h⟩ := ih htl href hget
        exact ⟨e', by simp [extractAttachments, hhd, h]⟩
      | some aid2 =>
        cases hga : env.getAttachment mid aid2 with
        | error e2 => exact ⟨e2, by simp [extractAttachments, hhd, hga]⟩
        | ok bytes =>
          obtain ⟨e', h⟩ := ih htl href hget
          exact ⟨e', by simp [extractAttachments, hhd, hga, h]⟩

/-! ### Claims -/

/-- Claim C1, counterexample.  The claim says a failure of one listed
message's full-content fetch does not prevent the fetching and processing
of the other listed messages in the same cycle.  In the code the fetch
batch is a bare `Promise.all` (lines 197-203) whose rejection is caught
only by the cycle-level catch: here the cycle lists `mF` (whose fetch
fails) and `mB`; the cycle produces no effects at all and leaves the store
unchanged, while the same world with only `mB` listed does process it
(a reply is sent and its thread becomes tracked). -/
theorem c1_counterexample :
    pollEmails envC1fail [] = ([], { listCalls := [pollListRequest] }) ∧
    (pollEmails envC1ok []).2.sent ≠ [] ∧
    Store.has (pollEmails envC1ok []).1 ("tB") = true := by decide

/-- Claim C1, amended: a failure of any listed message's full-content fetch
rejects the whole fetch batch, the cycle-level catch swallows it, and no
listed message is processed in that cycle (store unchanged, no classifier
call, nothing sent, nothing marked read). -/
theorem c1_fetch_failure_aborts_cycle (env : Env) (st : Store)
    (ids : List String) (fid : String) (e : JsError)
    (hlist : env.listUnread pollListRequest = .ok ids)
    (hmem : fid ∈ ids)
    (hget : env.getFull fid = .error e) :
    pollEmails env st = (st, { listCalls := [pollListRequest] }) := by
  obtain ⟨e', hfa⟩ := fetchAll_error_of_mem env ids hmem hget
  have hne : ids.isEmpty = false := by
    cases ids with
    | nil => cases hmem
    | cons a b => rfl
  simp [pollEmails, hlist, hne, hfa]

/-- Witness for the amended C1 theorem at the concrete two-message cycle. -/
theorem c1_witness :
    (envC1fail.listUnread pollListRequest = .ok [("mF"), ("mB")] ∧
     ("mF") ∈ [("mF"), ("mB")] ∧
     envC1fail.getFull ("mF") = .error ("network error")) ∧
    pollEmails envC1fail [] = ([], { listCalls := [pollListRequest] }) :=
  ⟨⟨by decide, by decide, by decide⟩,
   c1_fetch_failure_aborts_cycle envC1fail [] [("mF"), ("mB")] ("mF")
     ("network error") (by decide) (by decide) (by decide)⟩

/-- Claim C2, counterexample.  The claim says a follow-up with ANY subject
in a tracked thread whose classification lacks the marker gets its store
entry removed, no reply, and is marked read.  A real follow-up reply has
subject `Re: Analysis: invoice`, which fails the `Analysis:` re-check at
processEmail lines 138-141, so the email is skipped entirely: the entry is
NOT removed and the email is NOT marked read (the cycle's only effect is
the listing call). -/
theorem c2_counterexample :
    Store.has stC2 (msgFollow.threadId) = true ∧
    envC2.classify ("here is the invoice") = .ok ("Process the attached invoice") ∧
    pollEmails envC2 stC2 = (stC2, { listCalls := [pollListRequest] }) := by decide

/-- Claim C2, amended: for a follow-up email in a tracked thread WHOSE
SUBJECT STARTS WITH `Analysis:`, if the classifier returns text without the
clarification marker (and the mark-read call succeeds), the store entry for
that threadId is removed, no reply is sent, and the email is marked read; a
follow-up without the prefix is skipped entirely instead. -/
theorem c2_tracked_follow_up_understood (env : Env) (st : Store) (m : RawMessage)
    (email : Email) (ai : String)
    (hext : extractEmail env m = .ok email)
    (htracked : Store.has st email.threadId = true)
    (hsub : jsStartsWith (emailSubject email) ("Analysis:") = true)
    (hcl : env.classify email.body = .ok ai)
    (hmark : jsStartsWith ai ("Clarify:") = false)
    (hmr : env.markRead email.id = .ok ()) :
    processEmail env st m = .ok (Store.delete st email.threadId,
      { classifyCalls := [email.body], markedRead := [email.id] }) ∧
    Store.has (Store.delete st email.threadId) email.threadId = false :=
  ⟨processEmail_understood_mrok env st m email hext hsub hcl hmark hmr,
   Store.has_delete_self st email.threadId⟩

/-- Witness for the amended C2 theorem at a prefixed follow-up in a tracked
thread. -/
theorem c2_witness :
    Store.has stB2 emailB2.threadId = true ∧
    (processEmail envB2 stB2 msgB2 = .ok (Store.delete stB2 emailB2.threadId,
       { classifyCalls := [emailB2.body], markedRead := [emailB2.id] }) ∧
     Store.has (Store.delete stB2 emailB2.threadId) emailB2.threadId = false) :=
  ⟨by decide,
   c2_tracked_follow_up_understood envB2 stB2 msgB2 emailB2
     ("Process the attached invoice")
     (by decide) (by decide) (by decide) (by decide) (by decide) (by decide)⟩

/-- Claim C3: for a processed email whose classification starts with
`Clarify:`, exactly one reply is sent, it goes to the sender, carries the
full classification text (marker included), references the original
Message-ID in both `In-Reply-To` and `References`, and afterwards the
store holds a record for the email's threadId with `lastProcessedEmailId`
equal to the email's id (lines 146-156). -/
theorem c3_clarification_reply (env : Env) (st : Store) (m : RawMessage)
    (email : Email) (ai sndr mid : String)
    (hext : extractEmail env m = .ok email)
    (hfrom : email.headers.From = some sndr)
    (hmid : findMessageId m.payload.headers = some mid)
    (hsub : jsStartsWith (emailSubject email) ("Analysis:") = true)
    (hcl : env.classify email.body = .ok ai)
    (hmark : jsStartsWith ai ("Clarify:") = true)
    (hsend : env.send (mkReply (some sndr) (emailSubject email) ai
        email.threadId (some mid)) = .ok ()) :
    ∃ eff, processEmail env st m = .ok
        (Store.set st email.threadId { lastProcessedEmailId := email.id }, eff) ∧
      eff.sent = [mkReply (some sndr) (emailSubject email) ai email.threadId (some mid)] ∧
      (mkReply (some sndr) (emailSubject email) ai email.threadId (some mid)).body = ai ∧
      (mkReply (some sndr) (emailSubject email) ai email.threadId (some mid)).toAddr = sndr ∧
      (mkReply (some sndr) (emailSubject email) ai email.threadId (some mid)).inReplyTo = mid ∧
      (mkReply (some sndr) (emailSubject email) ai email.threadId (some mid)).references = mid ∧
      Store.lookup (Store.set st email.threadId { lastProcessedEmailId := email.id })
        email.threadId = some { lastProcessedEmailId := email.id } := by
  have hsend' : env.send (mkReply email.headers.From (emailSubject email) ai
      email.threadId (findMessageId m.payload.headers)) = .ok () := by
    rw [hfrom, hmid]; exact hsend
  cases hmr : env.markRead email.id with
  | ok u =>
    cases u
    have hp := processEmail_clarify_mrok env st m email hext hsub hcl hmark hsend' hmr
    rw [hfrom, hmid] at hp
    exact ⟨_, hp, rfl, rfl, rfl, rfl, rfl, Store.lookup_set_self st email.threadId _⟩
  | error e =>
    have hp := processEmail_clarify_mrerr env st m email hext hsub hcl hmark hsend' hmr
    rw [hfrom, hmid] at hp
    exact ⟨_, hp, rfl, rfl, rfl, rfl, rfl, Store.lookup_set_self st email.threadId _⟩

/-- Witness for C3 at the concrete clarification scenario. -/
theorem c3_witness :
    ∃ eff, processEmail envA [] msgA = .ok
        (Store.set [] emailA.threadId { lastProcessedEmailId := emailA.id }, eff) ∧
      eff.sent = [mkReply (some ("alice@example.com")) (emailSubject emailA)
        ("Clarify: which order number?") emailA.threadId (some ("<mid-A@mail>"))] ∧
      (mkReply (some ("alice@example.com")) (emailSubject emailA)
        ("Clarify: which order number?") emailA.threadId (some ("<mid-A@mail>"))).body
        = ("Clarify: which order number?") ∧
      (mkReply (some ("alice@example.com")) (emailSubject emailA)
        ("Clarify: which order number?") emailA.threadId (some ("<mid-A@mail>"))).toAddr
        = ("alice@example.com") ∧
      (mkReply (some ("alice@example.com")) (emailSubject emailA)
        ("Clarify: which order number?") emailA.threadId (some ("<mid-A@mail>"))).inReplyTo
        = ("<mid-A@mail>") ∧
      (mkReply (some ("alice@example.com")) (emailSubject emailA)
        ("Clarify: which order number?") emailA.threadId (some ("<mid-A@mail>"))).references
        = ("<mid-A@mail>") ∧
      Store.lookup (Store.set [] emailA.threadId { lastProcessedEmailId := emailA.id })
        emailA.threadId = some { lastProcessedEmailId := emailA.id } :=
  c3_clarification_reply envA [] msgA emailA ("Clarify: which order number?")
    ("alice@example.com") ("<mid-A@mail>")
    (by decide) (by decide) (by decide) (by decide) (by decide) (by decide) (by decide)

/-- Claim C4: an email whose subject lacks the `Analysis:` prefix and whose
threadId is untracked is not admitted (pollEmails line 213), and a cycle
over such a message performs no action at all: no classifier call, nothing
sent, store unchanged, nothing marked read. -/
theorem c4_no_prefix_untracked_noop :
    (∀ (st : Store) (m : RawMessage),
        jsStartsWith (pollSubject m) ("Analysis:") = false →
        Store.has st m.threadId = false →
        eligible st m = false) ∧
    (∀ (env : Env) (st : Store) (mid : String) (m : RawMessage),
        env.listUnread pollListRequest = .ok [mid] →
        env.getFull mid = .ok m →
        jsStartsWith (pollSubject m) ("Analysis:") = false →
        Store.has st m.threadId = false →
        pollEmails env st = (st, { listCalls := [pollListRequest] })) := by
  constructor
  · intro st m h1 h2
    simp [eligible, h1, h2]
  · intro env st mid m hlist hget h1 h2
    have helig : eligible st m = false := by simp [eligible, h1, h2]
    simp [pollEmails, hlist, fetchAll, hget, helig, runBatch]

/-- Witness for C4 at the concrete Scenario C (subject `Hello`). -/
theorem c4_witness :
    eligible [] msgH = false ∧
    pollEmails envC4 [] = ([], { listCalls := [pollListRequest] }) :=
  ⟨c4_no_prefix_untracked_noop.1 [] msgH (by decide) (by decide),
   c4_no_prefix_untracked_noop.2 envC4 [] ("mH") msgH
     (by decide) (by decide) (by decide) (by decide)⟩

/-- Claim C5: for a processed email whose classification does not start
with `Clarify:`, any existing ThreadRecord for its threadId is removed
(lines 157-171) and no reply is sent, whether or not the final mark-read
call succeeds. -/
theorem c5_understood_deletes_no_reply (env : Env) (st : Store) (m : RawMessage)
    (email : Email) (ai : String)
    (hext : extractEmail env m = .ok email)
    (hsub : jsStartsWith (emailSubject email) ("Analysis:") = true)
    (hcl : env.classify email.body = .ok ai)
    (hmark : jsStartsWith ai ("Clarify:") = false) :
    ∃ eff, processEmail env st m = .ok (Store.delete st email.threadId, eff) ∧
      eff.sent = [] ∧
      Store.has (Store.delete st email.threadId) email.threadId = false := by
  cases hmr : env.markRead email.id with
  | ok u =>
    cases u
    exact ⟨_, processEmail_understood_mrok env st m email hext hsub hcl hmark hmr,
      rfl, Store.has_delete_self st email.threadId⟩
  | error e =>
    exact ⟨_, processEmail_understood_mrerr env st m email hext hsub hcl hmark hmr,
      rfl, Store.has_delete_self st email.threadId⟩

/-- Witness for C5 at the concrete understood scenario. -/
theorem c5_witness :
    ∃ eff, processEmail envB2 stB2 msgB2 = .ok (Store.delete stB2 emailB2.threadId, eff) ∧
      eff.sent = [] ∧
      Store.has (Store.delete stB2 emailB2.threadId) emailB2.threadId = false :=
  c5_understood_deletes_no_reply envB2 stB2 msgB2 emailB2
    ("Process the attached invoice") (by decide) (by decide) (by decide) (by decide)

/-- Claim C6, counterexample.  The claim says any per-email failure leaves
the thread store as it was before that email's processing began.  But the
mark-read call runs AFTER the store transition (lines 156/170 before lines
174-178): here classification is understood, the deletion happens, then
mark-read fails — the error is caught, yet the store changed from a
one-entry map to the empty map. -/
theorem c6_counterexample :
    processEmail envMrErr stW msgA = .ok (([] : Store),
      { classifyCalls := [("please refund order 7")] }) ∧
    stW ≠ ([] : Store) := by decide

/-- Claim C6, amended: every error in classification, reply send or
mark-read is caught at the email level (processEmail still returns
normally).  A classification or send failure leaves the store unchanged
(nothing sent, nothing marked read); a mark-read failure is caught too,
but it happens after the store transition, which is kept (shown here for
the understood branch, whose deletion persists). -/
theorem c6_per_email_error_handling :
    (∀ (env : Env) (st : Store) (m : RawMessage) (email : Email) (e : JsError),
        extractEmail env m = .ok email →
        jsStartsWith (emailSubject email) ("Analysis:") = true →
        env.classify email.body = .error e →
        processEmail env st m = .ok (st, { classifyCalls := [email.body] })) ∧
    (∀ (env : Env) (st : Store) (m : RawMessage) (email : Email) (ai : String) (e : JsError),
        extractEmail env m = .ok email →
        jsStartsWith (emailSubject email) ("Analysis:") = true →
        env.classify email.body = .ok ai →
        jsStartsWith ai ("Clarify:") = true →
        env.send (mkReply email.headers.From (emailSubject email) ai
          email.threadId (findMessageId m.payload.headers)) = .error e →
        processEmail env st m = .ok (st, { classifyCalls := [email.body] })) ∧
    (∀ (env : Env) (st : Store) (m : RawMessage) (email : Email) (ai : String) (e : JsError),
        extractEmail env m = .ok email →
        jsStartsWith (emailSubject email) ("Analysis:") = true →
        env.classify email.body = .ok ai →
        jsStartsWith ai ("Clarify:") = false →
        env.markRead email.id = .error e →
        processEmail env st m = .ok (Store.delete st email.threadId,
          { classifyCalls := [email.body] })) :=
  ⟨fun env st m email e hext hsub hcl =>
      processEmail_classify_err env st m email hext hsub hcl,
   fun env st m email ai e hext hsub hcl hmark hsend =>
      processEmail_send_err env st m email hext hsub hcl hmark hsend,
   fun env st m email ai e hext hsub hcl hmark hmr =>
      processEmail_understood_mrerr env st m email hext hsub hcl hmark hmr⟩

/-- Witness for the amended C6 theorem: a failing classifier, a failing
send, and a failing mark-read, each at a concrete input. -/
theorem c6_witness :
    processEmail envClsErr stW msgA = .ok (stW,
      { classifyCalls := [("please refund order 7")] }) ∧
    processEmail envSendErr stW msgA = .ok (stW,
      { classifyCalls := [("please refund order 7")] }) ∧
    processEmail envMrErr stW msgA = .ok (Store.delete stW emailA.threadId,
      { classifyCalls := [("please refund order 7")] }) :=
  ⟨c6_per_email_error_handling.1 envClsErr stW msgA emailA ("model down")
     (by decide) (by decide) (by decide),
   c6_per_email_error_handling.2.1 envSendErr stW msgA emailA
     ("Clarify: which order number?") ("send fail")
     (by decide) (by decide) (by decide) (by decide) (by decide),
   c6_per_email_error_handling.2.2 envMrErr stW msgA emailA
     ("All understood, processing now") ("modify fail")
     (by decide) (by decide) (by decide) (by decide) (by decide)⟩

/-- Claim C7: every reply the engine sends has subject `Re: ` ++ the
original email's subject, and when the original carries a Message-Id
header, `In-Reply-To` and `References` are both set to its value
(sendEmailReply lines 100-122, wired at lines 129-133/148-154). -/
theorem c7_reply_headers :
    (∀ (env : Env) (st : Store) (m : RawMessage) (email : Email)
        (st' : Store) (eff : Effects) (r : SentMessage),
        extractEmail env m = .ok email →
        processEmail env st m = .ok (st', eff) →
        r ∈ eff.sent →
        r.subject = ("Re: ") ++ emailSubject email) ∧
    (∀ (env : Env) (st : Store) (m : RawMessage) (email : Email)
        (st' : Store) (eff : Effects) (r : SentMessage) (mid : String),
        extractEmail env m = .ok email →
        processEmail env st m = .ok (st', eff) →
        r ∈ eff.sent →
        findMessageId m.payload.headers = some mid →
        r.inReplyTo = mid ∧ r.references = mid) := by
  constructor
  · intro env st m email st' eff r hext hp hr
    rcases processEmail_shape env st m email st' eff hext hp with
      ⟨_, he⟩ | ⟨_, he⟩ | ⟨ai, mr, _, _, _, he⟩ | ⟨ai, mr, _, _, _, he⟩
    · simp [he, noEffects] at hr
    · simp [he] at hr
    · rw [he] at hr
      have hre : r = mkReply email.headers.From (emailSubject email) ai
          email.threadId (findMessageId m.payload.headers) := by simpa using hr
      rw [hre]
      rfl
    · simp [he] at hr
  · intro env st m email st' eff r mid hext hp hr hmid
    rcases processEmail_shape env st m email st' eff hext hp with
      ⟨_, he⟩ | ⟨_, he⟩ | ⟨ai, mr, _, _, _, he⟩ | ⟨ai, mr, _, _, _, he⟩
    · simp [he, noEffects] at hr
    · simp [he] at hr
    · rw [he] at hr
      have hre : r = mkReply email.headers.From (emailSubject email) ai
          email.threadId (findMessageId m.payload.headers) := by simpa using hr
      constructor <;> simp [hre, mkReply, hmid]
    · simp [he] at hr

/-- Witness for C7 at the concrete clarification reply. -/
theorem c7_witness :
    replyA.subject = ("Re: ") ++ emailSubject emailA ∧
    replyA.inReplyTo = ("<mid-A@mail>") ∧
    replyA.references = ("<mid-A@mail>") :=
  ⟨c7_reply_headers.1 envA [] msgA emailA stA effA replyA
     (by decide) (by decide) (by decide),
   (c7_reply_headers.2 envA [] msgA emailA stA effA replyA ("<mid-A@mail>")
     (by decide) (by decide) (by decide) (by decide)).1,
   (c7_reply_headers.2 envA [] msgA emailA stA effA replyA ("<mid-A@mail>")
     (by decide) (by decide) (by decide) (by decide)).2⟩

/-- Claim C8: every polling cycle issues exactly the fixed listing request,
whose `maxResults` is 50, so a cycle never requests more than 50 unread
messages in one listing call (lines 187-191). -/
theorem c8_listing_cap (env : Env) (st : Store) :
    (pollEmails env st).2.listCalls = [pollListRequest] ∧
    ∀ r : ListRequest, r ∈ (pollEmails env st).2.listCalls → r.maxResults ≤ 50 := by
  refine ⟨pollEmails_listCalls env st, ?_⟩
  intro r hr
  rw [pollEmails_listCalls env st] at hr
  have hre : r = pollListRequest := by simpa using hr
  rw [hre]
  decide

/-- Witness for C8 at a concrete cycle. -/
theorem c8_witness :
    (pollEmails envA []).2.listCalls = [pollListRequest] ∧
    pollListRequest.maxResults ≤ 50 :=
  ⟨(c8_listing_cap envA []).1,
   (c8_listing_cap envA []).2 pollListRequest (by decide)⟩

/-- Claim C9: if the fetch of any one attachment of a raw message fails,
the whole extraction fails — no Email (in particular none with a partial
attachment list) is returned — and the error propagates out of
processEmail to the caller (extractEmail lines 56-81; the extraction call
at line 126 sits outside the try block). -/
theorem c9_attachment_failure_fails_extraction (env : Env) (st : Store)
    (m : RawMessage) (parts : List Part) (p : Part) (aid : String) (e : JsError)
    (hparts : m.payload.parts = some parts)
    (hp : p ∈ parts)
    (href : attachmentRef p = some aid)
    (hget : env.getAttachment m.id aid = .error e) :
    (∃ e1, extractEmail env m = .error e1) ∧
    (∃ e2, processEmail env st m = .error e2) := by
  have hfail : ∃ e1, extractEmail env m = .error e1 := by
    cases hb : extractBody env m.payload with
    | error e1 => exact ⟨e1, by simp [extractEmail, hb]⟩
    | ok body =>
      obtain ⟨e', h⟩ := extractAttachments_error_of_mem env m.id parts hp href hget
      exact ⟨e', by simp [extractEmail, hb, attachmentsOf, hparts, h]⟩
  obtain ⟨e1, h1⟩ := hfail
  exact ⟨⟨e1, h1⟩, ⟨e1, processEmail_extract_err env st m h1⟩⟩

/-- Witness for C9 at a concrete multipart message with a failing
attachment fetch. -/
theorem c9_witness :
    (∃ e1, extractEmail envAttFail msgAtt = .error e1) ∧
    (∃ e2, processEmail envAttFail [] msgAtt = .error e2) :=
  c9_attachment_failure_fails_extraction envAttFail [] msgAtt
    [partText, partAtt] partAtt ("att-1") ("attachment fetch failed")
    (by decide) (by decide) (by decide) (by decide)

/-- Claim C10: a threadId enters the store only through the clarification
branch, after the reply send succeeded (the upsert at line 156 runs only
after the await at lines 148-154 resolved): any entry present after
processing that was absent before is the processed email's own threadId,
records that email's id, and comes with exactly one sent reply whose body
carries the `Clarify:` marker into that thread; a failed send leaves the
store without the new entry (it falls under the unchanged-store cases of
`processEmail_shape`). -/
theorem c10_tracking_only_after_successful_clarify (env : Env) (st : Store)
    (m : RawMessage) (email : Email) (st' : Store) (eff : Effects) (tid : String)
    (hext : extractEmail env m = .ok email)
    (hp : processEmail env st m = .ok (st', eff))
    (hnew : Store.has st' tid = true)
    (hold : Store.has st tid = false) :
    tid = email.threadId ∧
    Store.lookup st' tid = some { lastProcessedEmailId := email.id } ∧
    ∃ r, eff.sent = [r] ∧ jsStartsWith r.body ("Clarify:") = true ∧
      r.threadId = email.threadId := by
  rcases processEmail_shape env st m email st' eff hext hp with
    ⟨hst, _⟩ | ⟨hst, _⟩ | ⟨ai, mr, hcl, hmark, hst, he⟩ | ⟨ai, mr, hcl, hmark, hst, he⟩
  · rw [hst] at hnew
    exact absurd hnew (by simp [hold])
  · rw [hst] at hnew
    exact absurd hnew (by simp [hold])
  · rw [hst, Store.has_set, hold] at hnew
    have htid : email.threadId = tid := by simpa using hnew
    subst htid
    refine ⟨rfl, ?_, ?_⟩
    · rw [hst]
      exact Store.lookup_set_self st email.threadId _
    · rw [he]
      exact ⟨_, rfl, hmark, rfl⟩
  · rw [hst, Store.has_delete, hold] at hnew
    simp at hnew

/-- Witness for C10: the clarification scenario creates exactly such an
entry. -/
theorem c10_witness :
    ("tA") = emailA.threadId ∧
    Store.lookup stA ("tA") = some { lastProcessedEmailId := emailA.id } ∧
    ∃ r, effA.sent = [r] ∧ jsStartsWith r.body ("Clarify:") = true ∧
      r.threadId = emailA.threadId :=
  c10_tracking_only_after_successful_clarify envA [] msgA emailA stA effA ("tA")
    (by decide) (by decide) (by decide) (by decide)

end EmailAssistant
